import Mathlib

/-!
Shallow embedding of `app.py` (a Flask backend bridging a web front end to the
M-Pesa Daraja STK-push API) and proofs about its observable behaviour.

JSON values exchanged on the wire are modelled by `JVal`; Python semantics
(truthiness, `isinstance`, `==`, `dict.get`, exceptions) are modelled
explicitly.  Network effects are modelled by passing in the provider's
response (`NetResult`) and recording in the result which outbound steps were
performed.  Machine integers do not occur (Python ints are unbounded), so
`Int`/`Nat` are exact.  Non-integer JSON numbers are carried as `Rat`: the
code never performs arithmetic on them, it only tests truthiness and
`isinstance`, for which a rational carrier is exact.
-/

/-- A JSON value as produced by `request.get_json()` / `response.json()`.
Python maps JSON numbers to `int` or `float`; `bool` is kept separate because
in Python `bool` is a subtype of `int`. -/
inductive JVal where
  | null
  | bool (b : Bool)
  | int (n : Int)
  | float (q : Rat)
  | str (s : String)
  | arr (xs : List JVal)
  | obj (kvs : List (String × JVal))

/-- First-match association lookup, as Python dict lookup over unique keys. -/
def jfind : List (String × JVal) → String → Option JVal
  | [], _ => none
  | (k, v) :: rest, key => if k == key then some v else jfind rest key

/-- Python truthiness (`bool(x)`) on JSON-shaped values. -/
def pyTruthy : JVal → Bool
  | .null => false
  | .bool b => b
  | .int n => n != 0
  | .float q => q != 0
  | .str s => !s.data.isEmpty
  | .arr xs => !xs.isEmpty
  | .obj kvs => !kvs.isEmpty

/-- Python `isinstance(x, int)`: true for `int` and for `bool`
(`bool` is a subclass of `int`). -/
def pyIsInt : JVal → Bool
  | .int _ => true
  | .bool _ => true
  | _ => false

/-- Numeric value of a Python `int`-instance (`True` is 1, `False` is 0);
only meaningful under a `pyIsInt` guard. -/
def pyIntVal : JVal → Int
  | .int n => n
  | .bool b => if b then 1 else 0
  | _ => 0

/-- Python `str.isdigit()`, modelled with the decimal digits 0-9.  This is
exact on strings of ASCII characters (0-9 are the only ASCII characters
Python counts as digits); Python additionally accepts non-ASCII Unicode
digit characters such as U+0660, on which this model is conservative
(it answers false where Python answers true).  Theorems that rely on the
digit check being FALSE therefore quantify only over inputs carrying an
ASCII non-digit character as witness — or over a failing length or prefix
check, which Python and this model decide identically for every string. -/
def pyIsdigit (s : String) : Bool :=
  !s.data.isEmpty && s.data.all Char.isDigit

/-- Python `str.startswith(p)`. -/
def pyStartsWith (s p : String) : Bool :=
  s.data.take p.data.length == p.data

/-- Python `int(s)` on a string of decimal digits. -/
def digitsToNat (l : List Char) : Nat :=
  l.foldl (fun a c => a * 10 + (c.toNat - 48)) 0

/-- Python `x == 0` where `x` came from JSON: numeric cross-type equality
(`0 == 0.0 == False` in Python); strings, `None` and containers compare
unequal to `0`. -/
def pyEqNumZero : JVal → Bool
  | .int n => n == 0
  | .bool b => !b
  | .float q => q == 0
  | _ => false

/-- Python `x == "lit"`: true exactly when `x` is the same string. -/
def pyEqStrLit (v : JVal) (lit : String) : Bool :=
  match v with
  | .str t => t == lit
  | _ => false

/-- Python `==` between hashable (scalar) values, as used for dict keys:
numeric values compare by value across `int`/`bool`/`float`; strings by
content; `None` only to itself. -/
def pyEqScalar (a b : JVal) : Bool :=
  match a, b with
  | .str x, .str y => x == y
  | .null, .null => true
  | .int x, .int y => x == y
  | .int x, .bool y => x == (if y then (1 : Int) else 0)
  | .int x, .float y => (x : Rat) == y
  | .bool x, .int y => (if x then (1 : Int) else 0) == y
  | .bool x, .bool y => x == y
  | .bool x, .float y => ((if x then (1 : Int) else 0 : Int) : Rat) == y
  | .float x, .int y => x == (y : Rat)
  | .float x, .bool y => x == ((if y then (1 : Int) else 0 : Int) : Rat)
  | .float x, .float y => x == y
  | _, _ => false

/-- Python dict keys must be hashable; lists and dicts are not. -/
def pyHashable : JVal → Bool
  | .arr _ => false
  | .obj _ => false
  | _ => true

/-- `d[k] = v` on a Python dict represented as an insertion-ordered
association list: an existing key keeps its position (and original key
object), a new key is appended. -/
def dictInsert (d : List (JVal × JVal)) (k v : JVal) : List (JVal × JVal) :=
  if d.any (fun p => pyEqScalar p.1 k) then
    d.map (fun p => if pyEqScalar p.1 k then (p.1, v) else p)
  else d ++ [(k, v)]

/-- Python `d.get(k)` on the flat mapping (returns `None` when absent). -/
def pyDictGet (d : List (JVal × JVal)) (k : JVal) : Option JVal :=
  (d.find? (fun p => pyEqScalar p.1 k)).map (fun p => p.2)

/-- Python `v.get(k, dflt)`: succeeds when `v` is a dict; any other receiver
raises `AttributeError` (no `.get` method). -/
def pyGetD (v : JVal) (k : String) (dflt : JVal) : Except String JVal :=
  match v with
  | .obj kvs => .ok ((jfind kvs k).getD dflt)
  | _ => .error "AttributeError"

/-- Python `v.get(k)` with the implicit `None` default. -/
def pyGet (v : JVal) (k : String) : Except String JVal :=
  pyGetD v k .null

/-!  ## Configuration and credential generation  -/

/-- Static M-Pesa configuration.  The environment-variable loading lines are
truncated out of the shipped `app.py` (only the `if not all([...])` startup
check that names them survives), so, per the spec (section 6), the
configuration is modelled as a record of static strings required at startup.
Modelled from the spec: the assignments `CONSUMER_KEY = os.getenv(...)` etc.
are the missing code. -/
structure Config where
  CONSUMER_KEY : String
  CONSUMER_SECRET : String
  PASSKEY : String
  BUSINESS_SHORT_CODE : String
  CALLBACK_URL : String
  TRANSACTION_TYPE : String
  ACCOUNT_REFERENCE : String
  TRANSACTION_DESC : String

/-- A civil-clock instant in the Africa/Nairobi timezone (fixed UTC+3, no
daylight saving), at one-second granularity — what
`datetime.now(pytz.timezone("Africa/Nairobi"))` observes. -/
structure DateTime where
  year : Nat
  month : Nat
  day : Nat
  hour : Nat
  minute : Nat
  second : Nat
deriving DecidableEq

/-- Field ranges of a real calendar instant (as `datetime` guarantees). -/
def DateTime.valid (t : DateTime) : Prop :=
  1000 ≤ t.year ∧ t.year < 10000 ∧ 1 ≤ t.month ∧ t.month ≤ 12 ∧
  1 ≤ t.day ∧ t.day ≤ 31 ∧ t.hour < 24 ∧ t.minute < 60 ∧ t.second < 60

instance (t : DateTime) : Decidable t.valid := by
  unfold DateTime.valid; infer_instance

/-- Two zero-padded decimal digits (`%m`, `%d`, `%H`, `%M`, `%S`). -/
def digits2 (n : Nat) : List Char :=
  [Nat.digitChar (n / 10 % 10), Nat.digitChar (n % 10)]

/-- Four zero-padded decimal digits (`%Y` for four-digit years). -/
def digits4 (n : Nat) : List Char :=
  [Nat.digitChar (n / 1000 % 10), Nat.digitChar (n / 100 % 10),
   Nat.digitChar (n / 10 % 10), Nat.digitChar (n % 10)]

/-- `datetime.strftime("%Y%m%d%H%M%S")`. -/
def strftimeYmdHMS (t : DateTime) : String :=
  String.mk (digits4 t.year ++ digits2 t.month ++ digits2 t.day ++
             digits2 t.hour ++ digits2 t.minute ++ digits2 t.second)

/-- UTF-8 encoding of one character (`str.encode("utf-8")`). -/
def utf8Char (c : Char) : List Nat :=
  let n := c.toNat
  if n < 128 then [n]
  else if n < 2048 then [192 + n / 64, 128 + n % 64]
  else if n < 65536 then [224 + n / 4096, 128 + n / 64 % 64, 128 + n % 64]
  else [240 + n / 262144, 128 + n / 4096 % 64, 128 + n / 64 % 64, 128 + n % 64]

/-- UTF-8 bytes of a string. -/
def strUtf8 (s : String) : List Nat :=
  (s.data.map utf8Char).flatten

/-- The base64 alphabet. -/
def b64Digit (n : Nat) : Char :=
  "ABCDEFGHIJKLMNOPQRSTUVWXYZabcdefghijklmnopqrstuvwxyz0123456789+/".data.getD n 'A'

/-- Standard base64 of a byte list, with `=` padding
(`base64.b64encode`). -/
def b64Chunks : List Nat → List Char
  | [] => []
  | [a] => [b64Digit (a / 4), b64Digit (a % 4 * 16), '=', '=']
  | [a, b] => [b64Digit (a / 4), b64Digit (a % 4 * 16 + b / 16),
               b64Digit (b % 16 * 4), '=']
  | a :: b :: c :: rest =>
      b64Digit (a / 4) :: b64Digit (a % 4 * 16 + b / 16) ::
      b64Digit (b % 16 * 4 + c / 64) :: b64Digit (c % 64) :: b64Chunks rest

/-- `base64.b64encode(s.encode("utf-8")).decode("utf-8")`. -/
def base64Encode (s : String) : String :=
  String.mk (b64Chunks (strUtf8 s))

/-- `generate_mpesa_credentials` (app.py lines 74-90): the timestamp is the
current Nairobi civil time formatted `%Y%m%d%H%M%S`, and the password is
Base64 of `BUSINESS_SHORT_CODE + PASSKEY + timestamp`.  The wall clock is an
explicit parameter `t`. -/
def generate_mpesa_credentials (cfg : Config) (t : DateTime) : String × String :=
  let timestamp := strftimeYmdHMS t
  let password_str := cfg.BUSINESS_SHORT_CODE ++ cfg.PASSKEY ++ timestamp
  let password := base64Encode password_str
  (timestamp, password)

/-!  ## The token fetcher  -/

/-- What an outbound HTTP call observes: either the request itself failed
(`requests` raised a `RequestException` before/while delivering — connection
error, redirect loop, timeout), or a response arrived with a status code and
a body that either parses as JSON or does not. -/
structure ProviderResp where
  status : Nat
  body : Option JVal

/-- Outcome of one outbound `requests` call. -/
inductive NetResult where
  | transportError (msg : String)
  | resp (r : ProviderResp)

/-- `response.raise_for_status()` raises `HTTPError` exactly for client
(4xx) and server (5xx) error codes; other statuses pass. -/
def raisesForStatus (status : Nat) : Prop :=
  400 ≤ status ∧ status < 600

instance (s : Nat) : Decidable (raisesForStatus s) := by
  unfold raisesForStatus; infer_instance

/-- `get_access_token` (app.py lines 32-71).  The Basic-Auth header it sends
does not influence the value it returns, which is fully determined by the
provider's observed response `net`: the token value when the response is
non-error JSON whose `access_token` field is truthy, otherwise `None`
(every failure path logs and returns `None`; no exception escapes). -/
def get_access_token (net : NetResult) : Option JVal :=
  match net with
  | .transportError _ => none
  | .resp r =>
    if raisesForStatus r.status then none
    else
      match r.body with
      | none => none
      | some (.obj kvs) =>
          let access_token := (jfind kvs "access_token").getD .null
          if pyTruthy access_token then some access_token else none
      | some _ => none

/-!  ## The payment initiator  -/

/-- The JSON payload POSTed to the STK-push endpoint (app.py lines 142-154). -/
structure StkPayload where
  BusinessShortCode : Nat
  Password : String
  Timestamp : String
  TransactionType : String
  Amount : JVal
  PartyA : Nat
  PartyB : Nat
  PhoneNumber : Nat
  CallBackURL : String
  AccountReference : String
  TransactionDesc : String

/-- The two outbound calls `initiate_stk_push` can make, as observed
provider behaviour. -/
structure StkEnv where
  tokenNet : NetResult
  stkNet : NetResult

/-- What one call of `initiate_stk_push` did and answered: the HTTP status
and JSON body returned to the front end, whether `get_access_token` was
invoked, whether `generate_mpesa_credentials` was invoked, and the payload
passed to `requests.post` when that call was made. -/
structure StkOutcome where
  status : Nat
  body : JVal
  tokenCalled : Bool
  credsGenerated : Bool
  posted : Option StkPayload

/-- The STK-push payload as assembled at app.py lines 139-154 for a
validated phone string and amount: credentials are generated fresh from the
wall clock, `int(...)` is applied to the short code and the phone, and the
amount is embedded as received. -/
def mkStkPayload (cfg : Config) (t : DateTime) (phoneStr : String)
    (amount : JVal) : StkPayload :=
  let creds := generate_mpesa_credentials cfg t
  { BusinessShortCode := digitsToNat cfg.BUSINESS_SHORT_CODE.data
    Password := creds.2
    Timestamp := creds.1
    TransactionType := cfg.TRANSACTION_TYPE
    Amount := amount
    PartyA := digitsToNat phoneStr.data
    PartyB := digitsToNat cfg.BUSINESS_SHORT_CODE.data
    PhoneNumber := digitsToNat phoneStr.data
    CallBackURL := cfg.CALLBACK_URL
    AccountReference := cfg.ACCOUNT_REFERENCE
    TransactionDesc := cfg.TRANSACTION_DESC }

/-- `jsonify({"success": False, "message": msg})`. -/
def errBody (msg : String) : JVal :=
  .obj [("success", .bool false), ("message", .str msg)]

/-- Stand-in for the text of the `requests.HTTPError` raised by
`raise_for_status`; no claim depends on the exact wording. -/
def httpErrorText (status : Nat) : String :=
  toString status ++ " Error"

/-- The success body returned for `ResponseCode == "0"`
(app.py lines 174-179). -/
def stkSuccessBody (kvs : List (String × JVal)) : JVal :=
  .obj [("success", .bool true),
        ("message", (jfind kvs "CustomerMessage").getD
          (.str "STK Push initiated successfully! Please check your phone for the M-Pesa prompt.")),
        ("CheckoutRequestID", (jfind kvs "CheckoutRequestID").getD .null),
        ("ResponseCode", (jfind kvs "ResponseCode").getD .null)]

/-- The rejection body returned for any other `ResponseCode`
(app.py lines 182-188). -/
def stkRejectBody (kvs : List (String × JVal)) : JVal :=
  .obj [("success", .bool false),
        ("message", (jfind kvs "ResponseDescription").getD
          (.str "STK Push initiation failed due to an unknown M-Pesa error.")),
        ("MpesaResponse", .obj kvs)]

/-- The `try:` block of `initiate_stk_push` after validation passed
(app.py lines 131-198): fetch a token, generate credentials, build the
payload (`int(BUSINESS_SHORT_CODE)` raises `ValueError` into the generic
handler when the configured short code is not a digit string), POST, and
interpret the provider's reply.  `phoneStr` is the validated phone string
and `amount` the validated amount value. -/
def stkNetworkStage (cfg : Config) (t : DateTime) (env : StkEnv)
    (phoneStr : String) (amount : JVal) : StkOutcome :=
  match get_access_token env.tokenNet with
  | none =>
      ⟨500, errBody "Failed to connect to M-Pesa. Please try again later.",
       true, false, none⟩
  | some _tok =>
      if !pyIsdigit cfg.BUSINESS_SHORT_CODE then
        ⟨500, errBody ("An unexpected server error occurred: " ++ "ValueError"),
         true, true, none⟩
      else
        let payload := mkStkPayload cfg t phoneStr amount
        match env.stkNet with
        | .transportError e =>
            ⟨500, errBody ("Network or API communication error: " ++ e),
             true, true, some payload⟩
        | .resp r =>
            if raisesForStatus r.status then
              ⟨500, errBody ("Network or API communication error: " ++
                             httpErrorText r.status),
               true, true, some payload⟩
            else
              match r.body with
              | none =>
                  ⟨500, errBody "Failed to parse M-Pesa API response.",
                   true, true, some payload⟩
              | some (.obj kvs) =>
                  if pyEqStrLit ((jfind kvs "ResponseCode").getD .null) "0" then
                    ⟨200, stkSuccessBody kvs, true, true, some payload⟩
                  else
                    ⟨400, stkRejectBody kvs, true, true, some payload⟩
              | some _ =>
                  ⟨500, errBody ("An unexpected server error occurred: " ++
                                 "AttributeError"),
                   true, true, some payload⟩

/-- `initiate_stk_push` (app.py lines 102-198) on a parsed JSON request
body `data`.  Validation (lines 117-129) runs before any outbound call:
presence/truthiness of both fields, then the phone-format check, then the
positive-`int` amount check; each rejection is an HTTP 400 with the exact
message from the code and no outbound call. -/
def initiate_stk_push (cfg : Config) (t : DateTime) (env : StkEnv)
    (data : List (String × JVal)) : StkOutcome :=
  let phone_number := (jfind data "phoneNumber").getD .null
  let amount := (jfind data "amount").getD .null
  if !pyTruthy phone_number || !pyTruthy amount then
    ⟨400, errBody "Phone number and amount are required.", false, false, none⟩
  else if !(match phone_number with
            | .str s => (pyStartsWith s "2547" || pyStartsWith s "2541") &&
                        s.length == 12 && pyIsdigit s
            | _ => false) then
    ⟨400, errBody "Invalid Kenyan Safaricom phone number format. Must be 2547/2541XXXXXXXX.",
     false, false, none⟩
  else if !(pyIsInt amount && 0 < pyIntVal amount) then
    ⟨400, errBody "Amount must be a positive integer.", false, false, none⟩
  else
    stkNetworkStage cfg t env
      (match phone_number with | .str s => s | _ => "") amount

/-!  ## The callback receiver  -/

/-- What `mpesa_callback` (app.py lines 200-260) answers and extracts: the
HTTP status, the acknowledgement body's `ResultCode` and `ResultDesc`, and —
when the success branch ran — the flat `item_details` mapping built from
`CallbackMetadata.Item`. -/
structure CallbackOutcome where
  status : Nat
  ResultCode : Int
  ResultDesc : String
  item_details : Option (List (JVal × JVal))

/-- The `for item in callback_metadata.get("Item", []):` loop
(app.py lines 224-225): each `item.get` requires a dict item, and
`item_details[name] = value` requires a hashable key. -/
def processItems : List JVal → List (JVal × JVal) →
    Except String (List (JVal × JVal))
  | [], acc => .ok acc
  | item :: rest, acc =>
      match item with
      | .obj kvs =>
          let name := (jfind kvs "Name").getD .null
          let value := (jfind kvs "Value").getD .null
          if pyHashable name then processItems rest (dictInsert acc name value)
          else .error "TypeError"
      | _ => .error "AttributeError"

/-- `for item in v` combined with the loop body's first `.get`: a list
iterates its elements; an empty string or empty dict yields no iterations;
a nonempty string or dict yields non-dict items whose `.get` raises; other
values are not iterable. -/
def pyIterItems : JVal → Except String (List JVal)
  | .arr xs => .ok xs
  | .str s => if s.data.isEmpty then .ok [] else .error "AttributeError"
  | .obj kvs => if kvs.isEmpty then .ok [] else .error "AttributeError"
  | _ => .error "TypeError"

/-- `mpesa_callback` (app.py lines 200-260) on the parsed JSON request body
(a request whose body is not JSON raises inside the same `try` and takes
the same `except` path).  Any exception in the `try` block yields the
500 / `ResultCode` 1 acknowledgement; otherwise the success acknowledgement
is returned regardless of the payment's own result code. -/
def mpesa_callback (callback_data : JVal) : CallbackOutcome :=
  let comp : Except String (Option (List (JVal × JVal))) := do
    let bodyVal ← pyGetD callback_data "Body" (.obj [])
    let stk_callback ← pyGetD bodyVal "stkCallback" (.obj [])
    let result_code ← pyGet stk_callback "ResultCode"
    let _checkout_request_id ← pyGet stk_callback "CheckoutRequestID"
    let _result_description ← pyGet stk_callback "ResultDesc"
    if pyEqNumZero result_code then do
      let callback_metadata ← pyGetD stk_callback "CallbackMetadata" (.obj [])
      let itemsVal ← pyGetD callback_metadata "Item" (.arr [])
      let items ← pyIterItems itemsVal
      let item_details ← processItems items []
      pure (some item_details)
    else
      pure none
  match comp with
  | .ok ext => ⟨200, 0, "Callback received successfully", ext⟩
  | .error e => ⟨500, 1, "Failed to process callback: " ++ e, none⟩

/-- The provider's `CallbackMetadata.Item` list built from name/value
pairs, in the shape `{"Name": ..., "Value": ...}` the code consumes. -/
def mkItems (pairs : List (String × JVal)) : List JVal :=
  pairs.map (fun p => .obj [("Name", .str p.1), ("Value", p.2)])

/-- A concrete configuration used to instantiate theorems on closed inputs. -/
def cfgEx : Config :=
  ⟨"ck", "cs", "pk", "174379", "https://example.com/api/mpesa_callback",
   "CustomerPayBillOnline", "ref", "desc"⟩

/-!  ## Properties of the credential generator  -/

theorem digitChar_inj : ∀ a < 10, ∀ b < 10,
    Nat.digitChar a = Nat.digitChar b → a = b := by decide

theorem strftimeYmdHMS_inj (t1 t2 : DateTime) (h1 : t1.valid) (h2 : t2.valid)
    (h : strftimeYmdHMS t1 = strftimeYmdHMS t2) : t1 = t2 := by
  obtain ⟨y1, mo1, d1, hh1, mi1, s1⟩ := t1
  obtain ⟨y2, mo2, d2, hh2, mi2, s2⟩ := t2
  simp only [DateTime.valid] at h1 h2
  have h' := congrArg String.data h
  simp only [strftimeYmdHMS, digits4, digits2, List.cons_append,
    List.nil_append, List.cons.injEq, and_true] at h'
  obtain ⟨e1, e2, e3, e4, e5, e6, e7, e8, e9, e10, e11, e12, e13, e14⟩ := h'
  have q1 := digitChar_inj _ (Nat.mod_lt _ (by norm_num)) _ (Nat.mod_lt _ (by norm_num)) e1
  have q2 := digitChar_inj _ (Nat.mod_lt _ (by norm_num)) _ (Nat.mod_lt _ (by norm_num)) e2
  have q3 := digitChar_inj _ (Nat.mod_lt _ (by norm_num)) _ (Nat.mod_lt _ (by norm_num)) e3
  have q4 := digitChar_inj _ (Nat.mod_lt _ (by norm_num)) _ (Nat.mod_lt _ (by norm_num)) e4
  have q5 := digitChar_inj _ (Nat.mod_lt _ (by norm_num)) _ (Nat.mod_lt _ (by norm_num)) e5
  have q6 := digitChar_inj _ (Nat.mod_lt _ (by norm_num)) _ (Nat.mod_lt _ (by norm_num)) e6
  have q7 := digitChar_inj _ (Nat.mod_lt _ (by norm_num)) _ (Nat.mod_lt _ (by norm_num)) e7
  have q8 := digitChar_inj _ (Nat.mod_lt _ (by norm_num)) _ (Nat.mod_lt _ (by norm_num)) e8
  have q9 := digitChar_inj _ (Nat.mod_lt _ (by norm_num)) _ (Nat.mod_lt _ (by norm_num)) e9
  have q10 := digitChar_inj _ (Nat.mod_lt _ (by norm_num)) _ (Nat.mod_lt _ (by norm_num)) e10
  have q11 := digitChar_inj _ (Nat.mod_lt _ (by norm_num)) _ (Nat.mod_lt _ (by norm_num)) e11
  have q12 := digitChar_inj _ (Nat.mod_lt _ (by norm_num)) _ (Nat.mod_lt _ (by norm_num)) e12
  have q13 := digitChar_inj _ (Nat.mod_lt _ (by norm_num)) _ (Nat.mod_lt _ (by norm_num)) e13
  have q14 := digitChar_inj _ (Nat.mod_lt _ (by norm_num)) _ (Nat.mod_lt _ (by norm_num)) e14
  simp only [DateTime.mk.injEq]
  refine ⟨by omega, by omega, by omega, by omega, by omega, by omega⟩

/-- C6: `generate_mpesa_credentials` returns the Nairobi civil time
formatted `YYYYMMDDHHmmss` together with Base64 of
`shortcode ++ passkey ++ timestamp`; it is deterministic for a fixed
clock-second and fixed secrets, and two calls in different clock-seconds
yield different results. -/
theorem generate_mpesa_credentials_spec (cfg : Config) (t1 t2 : DateTime)
    (h1 : t1.valid) (h2 : t2.valid) :
    generate_mpesa_credentials cfg t1 =
      (strftimeYmdHMS t1,
       base64Encode (cfg.BUSINESS_SHORT_CODE ++ cfg.PASSKEY ++ strftimeYmdHMS t1)) ∧
    (t1 = t2 → generate_mpesa_credentials cfg t1 = generate_mpesa_credentials cfg t2) ∧
    (t1 ≠ t2 → generate_mpesa_credentials cfg t1 ≠ generate_mpesa_credentials cfg t2) := by
  refine ⟨rfl, fun h => by rw [h], fun hne heq => hne ?_⟩
  exact strftimeYmdHMS_inj t1 t2 h1 h2 (congrArg Prod.fst heq)

/-- Witness for C6 at two concrete instants one second apart. -/
theorem generate_mpesa_credentials_spec_witness :
    DateTime.valid ⟨2026, 10, 12, 9, 30, 0⟩ ∧
    DateTime.valid ⟨2026, 10, 12, 9, 30, 1⟩ ∧
    generate_mpesa_credentials cfgEx ⟨2026, 10, 12, 9, 30, 0⟩ =
      (strftimeYmdHMS ⟨2026, 10, 12, 9, 30, 0⟩,
       base64Encode (cfgEx.BUSINESS_SHORT_CODE ++ cfgEx.PASSKEY ++
         strftimeYmdHMS ⟨2026, 10, 12, 9, 30, 0⟩)) ∧
    generate_mpesa_credentials cfgEx ⟨2026, 10, 12, 9, 30, 0⟩ ≠
      generate_mpesa_credentials cfgEx ⟨2026, 10, 12, 9, 30, 1⟩ := by
  have h := generate_mpesa_credentials_spec cfgEx ⟨2026, 10, 12, 9, 30, 0⟩
    ⟨2026, 10, 12, 9, 30, 1⟩ (by decide) (by decide)
  exact ⟨by decide, by decide, h.1, h.2.2 (by decide)⟩

/-!  ## Properties of the callback receiver  -/

theorem pyEqScalar_str_left (a : JVal) (n m : String)
    (h1 : pyEqScalar a (.str n) = true) (h2 : pyEqScalar a (.str m) = true) :
    n = m := by
  cases a <;> simp [pyEqScalar] at h1 h2
  rw [← h1, ← h2]

theorem find?_dictMap (tl : List (JVal × JVal)) (k v : JVal) :
    List.find? (fun p => pyEqScalar p.1 k)
      (tl.map (fun p => if pyEqScalar p.1 k then (p.1, v) else p)) =
    (List.find? (fun p => pyEqScalar p.1 k) tl).map
      (fun p => if pyEqScalar p.1 k then (p.1, v) else p) := by
  induction tl with
  | nil => rfl
  | cons hd tl ih =>
    by_cases hhd : pyEqScalar hd.1 k = true
    · simp [List.find?_cons, hhd]
    · simp only [Bool.not_eq_true] at hhd
      simp [List.find?_cons, hhd, ih]

theorem pyDictGet_dictInsert_self (d : List (JVal × JVal)) (n : String) (v : JVal) :
    pyDictGet (dictInsert d (.str n) v) (.str n) = some v := by
  unfold dictInsert pyDictGet
  by_cases hany : d.any (fun p => pyEqScalar p.1 (.str n)) = true
  · rw [if_pos hany, find?_dictMap]
    have hsome : (List.find? (fun p => pyEqScalar p.1 (.str n)) d).isSome := by
      rw [List.find?_isSome]
      simpa [List.any_eq_true] using hany
    obtain ⟨q, hq⟩ := Option.isSome_iff_exists.mp hsome
    have hpq := List.find?_some hq
    simp [hq, hpq]
  · rw [if_neg hany, List.find?_append]
    have hnone : List.find? (fun p => pyEqScalar p.1 (.str n)) d = none := by
      rw [List.find?_eq_none]
      intro x hx
      simp only [Bool.not_eq_true]
      by_contra hc
      exact hany (List.any_eq_true.mpr ⟨x, hx, by simpa using hc⟩)
    rw [hnone, Option.none_or,
        List.find?_cons_of_pos _ (by simp [pyEqScalar])]
    rfl

theorem find?_dictMap_ne (tl : List (JVal × JVal)) (n m : String) (v : JVal)
    (hnm : n ≠ m) :
    List.find? (fun p => pyEqScalar p.1 (.str m))
      (tl.map (fun p => if pyEqScalar p.1 (.str n) then (p.1, v) else p)) =
    List.find? (fun p => pyEqScalar p.1 (.str m)) tl := by
  induction tl with
  | nil => rfl
  | cons hd tl ih =>
    by_cases hn : pyEqScalar hd.1 (.str n) = true
    · have hhd : pyEqScalar hd.1 (.str m) = false := by
        by_contra hc
        simp only [Bool.not_eq_false] at hc
        exact hnm (pyEqScalar_str_left hd.1 n m hn hc)
      simp only [List.map_cons, if_pos hn]
      rw [List.find?_cons_of_neg _ (by simp [hhd]),
          List.find?_cons_of_neg _ (by simp [hhd]), ih]
    · simp only [List.map_cons, if_neg hn]
      by_cases hhd : pyEqScalar hd.1 (.str m) = true
      · rw [List.find?_cons_of_pos _ (by simp [hhd]),
            List.find?_cons_of_pos _ (by simp [hhd])]
      · rw [List.find?_cons_of_neg _ (by simp [hhd]),
            List.find?_cons_of_neg _ (by simp [hhd]), ih]

theorem pyDictGet_dictInsert_other (d : List (JVal × JVal)) (n m : String)
    (v : JVal) (hnm : n ≠ m) :
    pyDictGet (dictInsert d (.str n) v) (.str m) = pyDictGet d (.str m) := by
  unfold dictInsert pyDictGet
  by_cases hany : d.any (fun p => pyEqScalar p.1 (.str n)) = true
  · rw [if_pos hany, find?_dictMap_ne d n m v hnm]
  · rw [if_neg hany, List.find?_append]
    have hlast : List.find? (fun p => pyEqScalar p.1 (.str m))
        [((.str n : JVal), v)] = none := by
      have : pyEqScalar (.str n) (.str m) = false := by
        simpa [pyEqScalar] using hnm
      simp [List.find?_cons, this]
    rw [hlast, Option.or_none]

theorem processItems_mkItems (pairs : List (String × JVal))
    (acc : List (JVal × JVal)) :
    processItems (mkItems pairs) acc =
      .ok (pairs.foldl (fun d p => dictInsert d (.str p.1) p.2) acc) := by
  induction pairs generalizing acc with
  | nil => rfl
  | cons p rest ih =>
    obtain ⟨n, v⟩ := p
    simp only [mkItems, List.map_cons, processItems, jfind, List.foldl_cons]
    norm_num [pyHashable]
    exact ih _

theorem pyDictGet_foldl_not_mem (pairs : List (String × JVal))
    (d : List (JVal × JVal)) (m : String) (hm : ∀ p ∈ pairs, p.1 ≠ m) :
    pyDictGet (pairs.foldl (fun d p => dictInsert d (.str p.1) p.2) d) (.str m) =
      pyDictGet d (.str m) := by
  induction pairs generalizing d with
  | nil => rfl
  | cons p rest ih =>
    rw [List.foldl_cons, ih _ (fun q hq => hm q (List.mem_cons_of_mem _ hq)),
        pyDictGet_dictInsert_other _ _ _ _ (hm p (List.mem_cons_self _ _))]

theorem pyDictGet_foldl_mem (pairs : List (String × JVal))
    (d : List (JVal × JVal)) (n : String) (v : JVal)
    (hmem : (n, v) ∈ pairs) (hnd : (pairs.map Prod.fst).Nodup) :
    pyDictGet (pairs.foldl (fun d p => dictInsert d (.str p.1) p.2) d) (.str n) =
      some v := by
  induction pairs generalizing d with
  | nil => cases hmem
  | cons p rest ih =>
    have hnd2 : (p.1 :: rest.map Prod.fst).Nodup := by
      rw [List.map_cons] at hnd; exact hnd
    have hnd' := List.nodup_cons.mp hnd2
    rw [List.foldl_cons]
    rcases List.mem_cons.mp hmem with heq | hmem2
    · have hp1 : p.1 = n := by rw [← heq]
      have hrest : ∀ q ∈ rest, q.1 ≠ n := by
        intro q hq hqn
        have hmm : q.1 ∈ rest.map Prod.fst := List.mem_map_of_mem Prod.fst hq
        rw [hqn, ← hp1] at hmm
        exact hnd'.1 hmm
      rw [pyDictGet_foldl_not_mem rest _ n hrest, ← heq,
          pyDictGet_dictInsert_self]
    · exact ih _ hmem2 hnd'.2

/-- C2 (amended): for every dict callback body lacking the provider's
nested envelope — no `Body` key, or a `Body` dict with no `stkCallback`
key — `mpesa_callback` raises nothing past the handler boundary and
returns the SUCCESS acknowledgement (HTTP 200, body `ResultCode` 0), not
the failure shape; the failure acknowledgement (`ResultCode` 1, HTTP 500)
is produced only by the exception path, e.g. for a non-dict body. -/
theorem mpesa_callback_missing_envelope (kvs : List (String × JVal))
    (h : jfind kvs "Body" = none ∨
         ∃ bkvs, jfind kvs "Body" = some (.obj bkvs) ∧
                 jfind bkvs "stkCallback" = none) :
    mpesa_callback (.obj kvs) =
      ⟨200, 0, "Callback received successfully", none⟩ := by
  unfold mpesa_callback
  rcases h with h | ⟨bkvs, hb, hs⟩
  · simp [pyGetD, pyGet, h, pyEqNumZero, jfind, Bind.bind, Except.bind, Pure.pure, Except.pure]
  · simp [pyGetD, pyGet, hb, hs, pyEqNumZero, jfind, Bind.bind, Except.bind, Pure.pure, Except.pure]

/-- Witness for C2's amended theorem at a concrete envelope-free body. -/
theorem mpesa_callback_missing_envelope_witness :
    mpesa_callback (.obj [("foo", .str "bar")]) =
      ⟨200, 0, "Callback received successfully", none⟩ :=
  mpesa_callback_missing_envelope [("foo", .str "bar")] (Or.inl rfl)

/-- C2 counterexample: on the concrete envelope-free body `{}` the handler
answers `ResultCode` 0 with HTTP 200 — the success-acknowledgement shape —
whereas the claim asserts the failure shape (`ResultCode` 1). -/
theorem mpesa_callback_missing_envelope_counterexample :
    (mpesa_callback (.obj [])).ResultCode = 0 ∧
    ¬ (mpesa_callback (.obj [])).ResultCode = 1 ∧
    (mpesa_callback (.obj [])).status = 200 :=
  ⟨rfl, by decide, rfl⟩

/-- C4: a well-formed envelope whose `ResultCode` is a nonzero integer
(failed or user-cancelled payment, no metadata required) is acknowledged
with HTTP 200 and body `ResultCode` 0 — never an HTTP error. -/
theorem mpesa_callback_nonzero_result_ack
    (outer bkvs stkkvs : List (String × JVal)) (n : Int)
    (hb : jfind outer "Body" = some (.obj bkvs))
    (hs : jfind bkvs "stkCallback" = some (.obj stkkvs))
    (hrc : jfind stkkvs "ResultCode" = some (.int n))
    (hn : n ≠ 0) :
    mpesa_callback (.obj outer) =
      ⟨200, 0, "Callback received successfully", none⟩ := by
  unfold mpesa_callback
  simp [pyGetD, pyGet, hb, hs, hrc, pyEqNumZero, hn, Bind.bind, Except.bind, Pure.pure, Except.pure]

/-- Witness for C4 at the provider's user-cancelled envelope
(`ResultCode` 1032, no `CallbackMetadata`). -/
theorem mpesa_callback_nonzero_result_ack_witness :
    mpesa_callback (.obj [("Body", .obj [("stkCallback", .obj
        [("MerchantRequestID", .str "mr1"),
         ("CheckoutRequestID", .str "ws_CO_1"),
         ("ResultCode", .int 1032),
         ("ResultDesc", .str "Request cancelled by user")])])]) =
      ⟨200, 0, "Callback received successfully", none⟩ :=
  mpesa_callback_nonzero_result_ack _ _ _ 1032 rfl rfl rfl (by decide)

/-- C7: a well-formed envelope with `ResultCode` 0 and a
`CallbackMetadata.Item` list of `Name`/`Value` items (with distinct names)
is acknowledged with HTTP 200 / `ResultCode` 0, and each item's value is
retrievable from the flat `item_details` mapping under its `Name` key. -/
theorem mpesa_callback_metadata_projection
    (outer bkvs stkkvs mdkvs : List (String × JVal))
    (pairs : List (String × JVal))
    (hb : jfind outer "Body" = some (.obj bkvs))
    (hs : jfind bkvs "stkCallback" = some (.obj stkkvs))
    (hrc : jfind stkkvs "ResultCode" = some (.int 0))
    (hmd : jfind stkkvs "CallbackMetadata" = some (.obj mdkvs))
    (hit : jfind mdkvs "Item" = some (.arr (mkItems pairs)))
    (hnd : (pairs.map Prod.fst).Nodup) :
    (mpesa_callback (.obj outer)).status = 200 ∧
    (mpesa_callback (.obj outer)).ResultCode = 0 ∧
    ∃ d, (mpesa_callback (.obj outer)).item_details = some d ∧
      ∀ p ∈ pairs, pyDictGet d (.str p.1) = some p.2 := by
  have hcomp : mpesa_callback (.obj outer) =
      ⟨200, 0, "Callback received successfully",
       some (pairs.foldl (fun d p => dictInsert d (.str p.1) p.2) [])⟩ := by
    unfold mpesa_callback
    simp [pyGetD, pyGet, hb, hs, hrc, hmd, hit, pyEqNumZero, pyIterItems,
          processItems_mkItems, Bind.bind, Except.bind, Pure.pure, Except.pure]
  rw [hcomp]
  refine ⟨rfl, rfl, _, rfl, fun p hp => ?_⟩
  exact pyDictGet_foldl_mem pairs [] p.1 p.2 (by simpa using hp) hnd

/-- Witness for C7 at the provider's documented three-item success
callback. -/
theorem mpesa_callback_metadata_projection_witness :
    (mpesa_callback (.obj [("Body", .obj [("stkCallback", .obj
        [("ResultCode", .int 0),
         ("CheckoutRequestID", .str "ws_CO_1"),
         ("ResultDesc", .str "The service request is processed successfully."),
         ("CallbackMetadata", .obj [("Item", .arr (mkItems
            [("MpesaReceiptNumber", .str "NLJ7RT61SV"),
             ("Amount", .int 100),
             ("PhoneNumber", .int 254712345678)]))])])])])).status = 200 ∧
    ∃ d, (mpesa_callback (.obj [("Body", .obj [("stkCallback", .obj
        [("ResultCode", .int 0),
         ("CheckoutRequestID", .str "ws_CO_1"),
         ("ResultDesc", .str "The service request is processed successfully."),
         ("CallbackMetadata", .obj [("Item", .arr (mkItems
            [("MpesaReceiptNumber", .str "NLJ7RT61SV"),
             ("Amount", .int 100),
             ("PhoneNumber", .int 254712345678)]))])])])])).item_details = some d ∧
      pyDictGet d (.str "MpesaReceiptNumber") = some (.str "NLJ7RT61SV") ∧
      pyDictGet d (.str "Amount") = some (.int 100) ∧
      pyDictGet d (.str "PhoneNumber") = some (.int 254712345678) := by
  have h := mpesa_callback_metadata_projection
    [("Body", .obj [("stkCallback", .obj
        [("ResultCode", .int 0),
         ("CheckoutRequestID", .str "ws_CO_1"),
         ("ResultDesc", .str "The service request is processed successfully."),
         ("CallbackMetadata", .obj [("Item", .arr (mkItems
            [("MpesaReceiptNumber", .str "NLJ7RT61SV"),
             ("Amount", .int 100),
             ("PhoneNumber", .int 254712345678)]))])])])]
    [("stkCallback", .obj
        [("ResultCode", .int 0),
         ("CheckoutRequestID", .str "ws_CO_1"),
         ("ResultDesc", .str "The service request is processed successfully."),
         ("CallbackMetadata", .obj [("Item", .arr (mkItems
            [("MpesaReceiptNumber", .str "NLJ7RT61SV"),
             ("Amount", .int 100),
             ("PhoneNumber", .int 254712345678)]))])])]
    [("ResultCode", .int 0),
     ("CheckoutRequestID", .str "ws_CO_1"),
     ("ResultDesc", .str "The service request is processed successfully."),
     ("CallbackMetadata", .obj [("Item", .arr (mkItems
        [("MpesaReceiptNumber", .str "NLJ7RT61SV"),
         ("Amount", .int 100),
         ("PhoneNumber", .int 254712345678)]))])]
    [("Item", .arr (mkItems
        [("MpesaReceiptNumber", .str "NLJ7RT61SV"),
         ("Amount", .int 100),
         ("PhoneNumber", .int 254712345678)]))]
    [("MpesaReceiptNumber", .str "NLJ7RT61SV"),
     ("Amount", .int 100),
     ("PhoneNumber", .int 254712345678)]
    rfl rfl rfl rfl rfl (by decide)
  obtain ⟨h1, _h2, d, hd, hall⟩ := h
  exact ⟨h1, d, hd,
    hall ("MpesaReceiptNumber", .str "NLJ7RT61SV") (by simp),
    hall ("Amount", .int 100) (by simp),
    hall ("PhoneNumber", .int 254712345678) (by simp)⟩

/-!  ## Properties of the token fetcher  -/

/-- C5 (amended): `get_access_token` returns the provider's token string
unchanged for a 2xx JSON reply carrying a nonempty `access_token`, and
returns `None` (never a crash) for: a 4xx/5xx HTTP status (the statuses
`raise_for_status` raises on — statuses outside both 2xx and 400-599, such
as 304, pass that check and can still yield a token), a non-JSON body, a
JSON body missing the `access_token` field, and a transport error. -/
theorem get_access_token_spec :
    (∀ (st : Nat) (kvs : List (String × JVal)) (tk : String),
        200 ≤ st → st < 300 →
        jfind kvs "access_token" = some (.str tk) → tk ≠ "" →
        get_access_token (.resp ⟨st, some (.obj kvs)⟩) = some (.str tk)) ∧
    (∀ (st : Nat) (b : Option JVal), 400 ≤ st → st < 600 →
        get_access_token (.resp ⟨st, b⟩) = none) ∧
    (∀ st : Nat, get_access_token (.resp ⟨st, none⟩) = none) ∧
    (∀ (st : Nat) (kvs : List (String × JVal)),
        jfind kvs "access_token" = none →
        get_access_token (.resp ⟨st, some (.obj kvs)⟩) = none) ∧
    (∀ e : String, get_access_token (.transportError e) = none) := by
  refine ⟨?_, ?_, ?_, ?_, fun e => rfl⟩
  · intro st kvs tk h2 h3 hfind htk
    have hnr : ¬ raisesForStatus st := by
      unfold raisesForStatus; omega
    have hne : pyTruthy (.str tk) = true := by
      cases htd : tk.data with
      | nil =>
          exact absurd (by cases tk with | mk l => simp_all) htk
      | cons c cs => simp [pyTruthy, htd]
    simp [get_access_token, hnr, hfind, hne]
  · intro st b h1 h2
    have hr : raisesForStatus st := by unfold raisesForStatus; omega
    simp [get_access_token, hr]
  · intro st
    by_cases hr : raisesForStatus st <;> simp [get_access_token, hr]
  · intro st kvs hfind
    by_cases hr : raisesForStatus st <;>
      simp [get_access_token, hr, hfind, pyTruthy]

/-- Witness for C5's amended theorem: a 200 JSON token reply is returned
unchanged, a 500 reply yields `None`. -/
theorem get_access_token_spec_witness :
    (200 ≤ 200 ∧ 200 < 300 ∧
      jfind [("access_token", JVal.str "tok")] "access_token" =
        some (.str "tok") ∧ "tok" ≠ "" ∧
      get_access_token (.resp ⟨200, some (.obj [("access_token", .str "tok")])⟩) =
        some (.str "tok")) ∧
    (400 ≤ 500 ∧ 500 < 600 ∧
      get_access_token (.resp ⟨500, some (.obj [("access_token", .str "tok")])⟩) =
        none) := by
  refine ⟨⟨by decide, by decide, rfl, by decide, ?_⟩, ⟨by decide, by decide, ?_⟩⟩
  · exact get_access_token_spec.1 200 [("access_token", .str "tok")] "tok"
      (by decide) (by decide) rfl (by decide)
  · exact get_access_token_spec.2.1 500
      (some (.obj [("access_token", .str "tok")])) (by decide) (by decide)

/-- C5 counterexample: 304 is not a 2xx status, yet the code returns the
token rather than an absent/error indication, because `raise_for_status`
only raises on 4xx/5xx — refuting the claim's "non-2xx" failure case as
stated. -/
theorem get_access_token_non2xx_counterexample :
    ¬ (200 ≤ 304 ∧ 304 < 300) ∧
    get_access_token (.resp ⟨304, some (.obj [("access_token", .str "tok")])⟩) =
      some (.str "tok") ∧
    get_access_token (.resp ⟨304, some (.obj [("access_token", .str "tok")])⟩) ≠
      none := by
  refine ⟨by decide, ?_, ?_⟩ <;>
    simp [get_access_token, raisesForStatus, jfind, pyTruthy]

/-!  ## Properties of the payment initiator  -/

theorem stkNetworkStage_tokenCalled (cfg : Config) (t : DateTime)
    (env : StkEnv) (s : String) (a : JVal) :
    (stkNetworkStage cfg t env s a).tokenCalled = true := by
  unfold stkNetworkStage
  repeat' split <;> try rfl

theorem stkNetworkStage_token_none (cfg : Config) (t : DateTime)
    (env : StkEnv) (s : String) (a : JVal)
    (htok : get_access_token env.tokenNet = none) :
    stkNetworkStage cfg t env s a =
      ⟨500, errBody "Failed to connect to M-Pesa. Please try again later.",
       true, false, none⟩ := by
  unfold stkNetworkStage
  rw [htok]

theorem stkNetworkStage_http_error (cfg : Config) (t : DateTime)
    (env : StkEnv) (s : String) (a : JVal) (tok : JVal) (r : ProviderResp)
    (htok : get_access_token env.tokenNet = some tok)
    (hb : pyIsdigit cfg.BUSINESS_SHORT_CODE = true)
    (hsn : env.stkNet = .resp r)
    (hr : raisesForStatus r.status) :
    stkNetworkStage cfg t env s a =
      ⟨500, errBody ("Network or API communication error: " ++
                     httpErrorText r.status),
       true, true, some (mkStkPayload cfg t s a)⟩ := by
  unfold stkNetworkStage
  rw [htok, hsn]
  simp [hb, hr]

theorem stkNetworkStage_resp_body (cfg : Config) (t : DateTime)
    (env : StkEnv) (s : String) (a : JVal) (tok : JVal) (st : Nat)
    (kvs : List (String × JVal))
    (htok : get_access_token env.tokenNet = some tok)
    (hb : pyIsdigit cfg.BUSINESS_SHORT_CODE = true)
    (hsn : env.stkNet = .resp ⟨st, some (.obj kvs)⟩)
    (hst : ¬ raisesForStatus st) :
    stkNetworkStage cfg t env s a =
      if pyEqStrLit ((jfind kvs "ResponseCode").getD .null) "0" then
        ⟨200, stkSuccessBody kvs, true, true, some (mkStkPayload cfg t s a)⟩
      else
        ⟨400, stkRejectBody kvs, true, true, some (mkStkPayload cfg t s a)⟩ := by
  unfold stkNetworkStage
  rw [htok, hsn]
  simp [hb, hst]

theorem stkNetworkStage_posted (cfg : Config) (t : DateTime)
    (env : StkEnv) (s : String) (a : JVal) (tok : JVal)
    (htok : get_access_token env.tokenNet = some tok)
    (hb : pyIsdigit cfg.BUSINESS_SHORT_CODE = true) :
    (stkNetworkStage cfg t env s a).posted = some (mkStkPayload cfg t s a) := by
  unfold stkNetworkStage
  rw [htok]
  simp only [hb, Bool.not_true, Bool.false_eq_true, if_false]
  repeat' split
  all_goals rfl

theorem initiate_validation_pass (cfg : Config) (t : DateTime) (env : StkEnv)
    (data : List (String × JVal)) (s : String) (a : JVal)
    (hp : jfind data "phoneNumber" = some (.str s))
    (ha : jfind data "amount" = some a)
    (hlen : s.length = 12)
    (hpre : (pyStartsWith s "2547" || pyStartsWith s "2541") = true)
    (hdig : s.data.all Char.isDigit = true)
    (hat : pyTruthy a = true)
    (hai : (pyIsInt a && decide (0 < pyIntVal a)) = true) :
    initiate_stk_push cfg t env data = stkNetworkStage cfg t env s a := by
  unfold initiate_stk_push
  rw [hp, ha]
  have hlen2 : s.data.length = 12 := hlen
  have hne : s.data ≠ [] := by
    intro h
    rw [h] at hlen2
    cases hlen2
  have htr : pyTruthy (.str s) = true := by
    cases hd : s.data with
    | nil => exact absurd hd hne
    | cons c cs => simp [pyTruthy, hd]
  have hfmt : ((pyStartsWith s "2547" || pyStartsWith s "2541") &&
               s.length == 12 && pyIsdigit s) = true := by
    simp only [Bool.and_eq_true, beq_iff_eq]
    exact ⟨⟨hpre, hlen⟩, by simp [pyIsdigit, hne, hdig]⟩
  simp [htr, hat, hfmt, hai]

theorem initiate_reject_missing (cfg : Config) (t : DateTime) (env : StkEnv)
    (data : List (String × JVal))
    (h : (!pyTruthy ((jfind data "phoneNumber").getD .null) ||
          !pyTruthy ((jfind data "amount").getD .null)) = true) :
    initiate_stk_push cfg t env data =
      ⟨400, errBody "Phone number and amount are required.",
       false, false, none⟩ := by
  unfold initiate_stk_push
  simp [h]

theorem initiate_reject_phone (cfg : Config) (t : DateTime) (env : StkEnv)
    (data : List (String × JVal))
    (h1 : pyTruthy ((jfind data "phoneNumber").getD .null) = true)
    (h2 : pyTruthy ((jfind data "amount").getD .null) = true)
    (h3 : (match (jfind data "phoneNumber").getD .null with
           | JVal.str s => (pyStartsWith s "2547" || pyStartsWith s "2541") &&
                           s.length == 12 && pyIsdigit s
           | _ => false) = false) :
    initiate_stk_push cfg t env data =
      ⟨400, errBody "Invalid Kenyan Safaricom phone number format. Must be 2547/2541XXXXXXXX.",
       false, false, none⟩ := by
  unfold initiate_stk_push
  simp [h1, h2, h3]

theorem initiate_reject_amount (cfg : Config) (t : DateTime) (env : StkEnv)
    (data : List (String × JVal))
    (h1 : pyTruthy ((jfind data "phoneNumber").getD .null) = true)
    (h2 : pyTruthy ((jfind data "amount").getD .null) = true)
    (h3 : (match (jfind data "phoneNumber").getD .null with
           | JVal.str s => (pyStartsWith s "2547" || pyStartsWith s "2541") &&
                           s.length == 12 && pyIsdigit s
           | _ => false) = true)
    (h4 : (pyIsInt ((jfind data "amount").getD .null) &&
           decide (0 < pyIntVal ((jfind data "amount").getD .null))) = false) :
    initiate_stk_push cfg t env data =
      ⟨400, errBody "Amount must be a positive integer.",
       false, false, none⟩ := by
  unfold initiate_stk_push
  simp [h1, h2, h3, h4]

/-- C1: validation of `initiate_stk_push` accepts exactly the valid
inputs — every 12-character digit string with prefix 2547 or 2541 together
with a positive integer amount proceeds to the network stage (the token
fetcher is invoked) — and every rejected input yields an HTTP 400 with no
token fetch, no credential generation and no payment POST.  The rejected
phones are quantified as: wrong length, wrong prefix (both decided
identically to Python for every string), or a non-digit ASCII character
(the subdomain on which the modelled `str.isdigit()` coincides with
Python's, see `pyIsdigit`; a phone made solely of non-ASCII Unicode
digits passes the real validation, so it is deliberately outside this
hypothesis).  The rejected amounts are: zero, negative, non-integer or
non-numeric, for any phone value. -/
theorem initiate_stk_push_validation (cfg : Config) (t : DateTime)
    (env : StkEnv) (data : List (String × JVal)) :
    ((∃ s : String, jfind data "phoneNumber" = some (.str s) ∧
        s.length = 12 ∧
        (pyStartsWith s "2547" = true ∨ pyStartsWith s "2541" = true) ∧
        s.data.all Char.isDigit = true ∧
        ∃ n : Int, jfind data "amount" = some (.int n) ∧ 0 < n) →
      (initiate_stk_push cfg t env data).tokenCalled = true) ∧
    (((∃ s : String, jfind data "phoneNumber" = some (.str s) ∧
        (s.length ≠ 12 ∨
         (pyStartsWith s "2547" = false ∧ pyStartsWith s "2541" = false) ∨
         (∃ c ∈ s.data, c.toNat < 128 ∧ c.isDigit = false))) ∨
      (∃ n : Int, jfind data "amount" = some (.int n) ∧ n ≤ 0) ∨
      jfind data "amount" = some (.bool false) ∨
      jfind data "amount" = none ∨
      jfind data "amount" = some .null ∨
      (∃ q : Rat, jfind data "amount" = some (.float q)) ∨
      (∃ s2 : String, jfind data "amount" = some (.str s2)) ∨
      (∃ xs : List JVal, jfind data "amount" = some (.arr xs)) ∨
      (∃ kvs2 : List (String × JVal), jfind data "amount" = some (.obj kvs2))) →
      (initiate_stk_push cfg t env data).status = 400 ∧
      (initiate_stk_push cfg t env data).tokenCalled = false ∧
      (initiate_stk_push cfg t env data).credsGenerated = false ∧
      (initiate_stk_push cfg t env data).posted = none) := by
  constructor
  · rintro ⟨s, hp, hlen, hpre, hdig, n, ha, hn⟩
    rw [initiate_validation_pass cfg t env data s (.int n) hp ha hlen
      (by rcases hpre with h | h <;> simp [h]) hdig
      (by simp only [pyTruthy, bne_iff_ne, ne_eq]; omega)
      (by simp only [pyIsInt, pyIntVal, Bool.true_and, decide_eq_true_eq]; omega)]
    exact stkNetworkStage_tokenCalled cfg t env s (.int n)
  · intro h
    cases hpt : pyTruthy ((jfind data "phoneNumber").getD .null) with
    | false =>
        rw [initiate_reject_missing cfg t env data (by simp [hpt])]
        exact ⟨rfl, rfl, rfl, rfl⟩
    | true =>
    cases hat : pyTruthy ((jfind data "amount").getD .null) with
    | false =>
        rw [initiate_reject_missing cfg t env data (by simp [hat])]
        exact ⟨rfl, rfl, rfl, rfl⟩
    | true =>
    cases hfm : (match (jfind data "phoneNumber").getD .null with
           | JVal.str s => (pyStartsWith s "2547" || pyStartsWith s "2541") &&
                           s.length == 12 && pyIsdigit s
           | _ => false) with
    | false =>
        rw [initiate_reject_phone cfg t env data hpt hat hfm]
        exact ⟨rfl, rfl, rfl, rfl⟩
    | true =>
    cases ham : (pyIsInt ((jfind data "amount").getD .null) &&
                 decide (0 < pyIntVal ((jfind data "amount").getD .null))) with
    | false =>
        rw [initiate_reject_amount cfg t env data hpt hat hfm ham]
        exact ⟨rfl, rfl, rfl, rfl⟩
    | true =>
      exfalso
      rcases h with ⟨s, hp, hbadphone⟩ |
        ⟨n, ha, hn⟩ | ha | ha | ha | ⟨q, ha⟩ | ⟨s2, ha⟩ | ⟨xs, ha⟩ | ⟨kvs2, ha⟩
      · rw [hp, Option.getD_some] at hfm
        simp only [Bool.and_eq_true, Bool.or_eq_true, beq_iff_eq] at hfm
        obtain ⟨⟨hpre2, hlen2⟩, hdig2⟩ := hfm
        rcases hbadphone with hlen1 | ⟨hp1, hp2⟩ | ⟨c, hcmem, _hascii, hcd⟩
        · exact hlen1 hlen2
        · rcases hpre2 with hh | hh
          · rw [hp1] at hh
            cases hh
          · rw [hp2] at hh
            cases hh
        · have hall := ((Bool.and_eq_true _ _).mp hdig2).2
          rw [List.all_eq_true] at hall
          have hc2 := hall c hcmem
          rw [hcd] at hc2
          cases hc2
      · rw [ha, Option.getD_some] at hat ham
        simp only [pyTruthy, pyIsInt, pyIntVal, Bool.true_and,
          decide_eq_true_eq] at hat ham
        omega
      · rw [ha, Option.getD_some] at hat
        cases hat
      · rw [ha, Option.getD_none] at hat
        cases hat
      · rw [ha, Option.getD_some] at hat
        cases hat
      · rw [ha, Option.getD_some] at ham
        cases ham
      · rw [ha, Option.getD_some] at ham
        cases ham
      · rw [ha, Option.getD_some] at ham
        cases ham
      · rw [ha, Option.getD_some] at ham
        cases ham

/-- Witness for C1: a valid request reaches the token fetcher; a
wrongly-prefixed phone and a zero amount are each rejected with 400. -/
theorem initiate_stk_push_validation_witness :
    (initiate_stk_push cfgEx ⟨2026, 10, 12, 9, 30, 0⟩
       ⟨.transportError "down", .transportError "down"⟩
       [("phoneNumber", .str "254712345678"), ("amount", .int 100)]).tokenCalled
      = true ∧
    (initiate_stk_push cfgEx ⟨2026, 10, 12, 9, 30, 0⟩
       ⟨.transportError "down", .transportError "down"⟩
       [("phoneNumber", .str "0712345678"), ("amount", .int 100)]).status
      = 400 ∧
    (initiate_stk_push cfgEx ⟨2026, 10, 12, 9, 30, 0⟩
       ⟨.transportError "down", .transportError "down"⟩
       [("phoneNumber", .str "254712345678"), ("amount", .int 0)]).tokenCalled
      = false := by
  refine ⟨?_, ?_, ?_⟩
  · exact (initiate_stk_push_validation cfgEx ⟨2026, 10, 12, 9, 30, 0⟩
      ⟨.transportError "down", .transportError "down"⟩
      [("phoneNumber", .str "254712345678"), ("amount", .int 100)]).1
      ⟨"254712345678", rfl, by decide, Or.inl (by decide), by decide,
       100, rfl, by decide⟩
  · exact ((initiate_stk_push_validation cfgEx ⟨2026, 10, 12, 9, 30, 0⟩
      ⟨.transportError "down", .transportError "down"⟩
      [("phoneNumber", .str "0712345678"), ("amount", .int 100)]).2
      (Or.inl ⟨"0712345678", rfl, Or.inl (by decide)⟩)).1
  · exact ((initiate_stk_push_validation cfgEx ⟨2026, 10, 12, 9, 30, 0⟩
      ⟨.transportError "down", .transportError "down"⟩
      [("phoneNumber", .str "254712345678"), ("amount", .int 0)]).2
      (Or.inr (Or.inl ⟨0, rfl, by decide⟩))).2.1

/-- C8: when the access token cannot be obtained, `initiate_stk_push`
fails fast on a valid request: HTTP 500 with the fixed generic
"try again later" body (independent of the provider's error details), no
credential generation and no POST to the payment endpoint. -/
theorem initiate_stk_push_token_failure (cfg : Config) (t : DateTime)
    (env : StkEnv) (data : List (String × JVal)) (s : String) (n : Int)
    (hp : jfind data "phoneNumber" = some (.str s))
    (ha : jfind data "amount" = some (.int n))
    (hlen : s.length = 12)
    (hpre : (pyStartsWith s "2547" = true ∨ pyStartsWith s "2541" = true))
    (hdig : s.data.all Char.isDigit = true)
    (hn : 0 < n)
    (htok : get_access_token env.tokenNet = none) :
    initiate_stk_push cfg t env data =
      ⟨500, errBody "Failed to connect to M-Pesa. Please try again later.",
       true, false, none⟩ := by
  rw [initiate_validation_pass cfg t env data s (.int n) hp ha hlen
    (by rcases hpre with h | h <;> simp [h]) hdig
    (by simp only [pyTruthy, bne_iff_ne, ne_eq]; omega)
    (by simp only [pyIsInt, pyIntVal, Bool.true_and, decide_eq_true_eq]; omega)]
  exact stkNetworkStage_token_none cfg t env s (.int n) htok

/-- Witness for C8: concrete valid request against an unreachable token
endpoint. -/
theorem initiate_stk_push_token_failure_witness :
    initiate_stk_push cfgEx ⟨2026, 10, 12, 9, 30, 0⟩
      ⟨.resp ⟨500, none⟩, .transportError "unused"⟩
      [("phoneNumber", .str "254712345678"), ("amount", .int 100)] =
    ⟨500, errBody "Failed to connect to M-Pesa. Please try again later.",
     true, false, none⟩ :=
  initiate_stk_push_token_failure cfgEx ⟨2026, 10, 12, 9, 30, 0⟩
    ⟨.resp ⟨500, none⟩, .transportError "unused"⟩
    [("phoneNumber", .str "254712345678"), ("amount", .int 100)]
    "254712345678" 100 rfl rfl (by decide) (Or.inl (by decide)) (by decide)
    (by decide) rfl

/-- C3: for a valid request whose payment POST yields a 2xx JSON object
reply, `ResponseCode` equal to the string "0" produces a 200 success
response whose body carries the provider's `CheckoutRequestID` unchanged,
and any other string `ResponseCode` produces a 400 failure response whose
`message` is exactly the provider's `ResponseDescription` text. -/
theorem initiate_stk_push_response_interpretation (cfg : Config)
    (t : DateTime) (env : StkEnv) (data : List (String × JVal)) (s : String)
    (n : Int) (tok : JVal) (st : Nat) (kvs : List (String × JVal))
    (hp : jfind data "phoneNumber" = some (.str s))
    (ha : jfind data "amount" = some (.int n))
    (hlen : s.length = 12)
    (hpre : (pyStartsWith s "2547" = true ∨ pyStartsWith s "2541" = true))
    (hdig : s.data.all Char.isDigit = true)
    (hn : 0 < n)
    (htok : get_access_token env.tokenNet = some tok)
    (hsc : pyIsdigit cfg.BUSINESS_SHORT_CODE = true)
    (hsn : env.stkNet = .resp ⟨st, some (.obj kvs)⟩)
    (h2a : 200 ≤ st) (h2b : st < 300) :
    ((jfind kvs "ResponseCode" = some (.str "0") →
      (initiate_stk_push cfg t env data).status = 200 ∧
      ∀ cid, jfind kvs "CheckoutRequestID" = some cid →
        ∃ flds, (initiate_stk_push cfg t env data).body = .obj flds ∧
          jfind flds "CheckoutRequestID" = some cid)) ∧
    (∀ c desc, jfind kvs "ResponseCode" = some (.str c) → c ≠ "0" →
      jfind kvs "ResponseDescription" = some (.str desc) →
      (initiate_stk_push cfg t env data).status = 400 ∧
      ∃ flds, (initiate_stk_push cfg t env data).body = .obj flds ∧
        jfind flds "message" = some (.str desc)) := by
  have hred : initiate_stk_push cfg t env data =
      if pyEqStrLit ((jfind kvs "ResponseCode").getD .null) "0" then
        ⟨200, stkSuccessBody kvs, true, true, some (mkStkPayload cfg t s (.int n))⟩
      else
        ⟨400, stkRejectBody kvs, true, true, some (mkStkPayload cfg t s (.int n))⟩ := by
    rw [initiate_validation_pass cfg t env data s (.int n) hp ha hlen
      (by rcases hpre with h | h <;> simp [h]) hdig
      (by simp only [pyTruthy, bne_iff_ne, ne_eq]; omega)
      (by simp only [pyIsInt, pyIntVal, Bool.true_and, decide_eq_true_eq]; omega)]
    exact stkNetworkStage_resp_body cfg t env s (.int n) tok st kvs htok hsc hsn
      (by unfold raisesForStatus; omega)
  constructor
  · intro h0
    have hcond : pyEqStrLit ((jfind kvs "ResponseCode").getD .null) "0" = true := by
      rw [h0]
      rfl
    rw [hred, if_pos hcond]
    refine ⟨rfl, fun cid hcid => ⟨_, rfl, ?_⟩⟩
    simp [stkSuccessBody, jfind, hcid]
  · intro c desc hc hcne hdesc
    have hcond : pyEqStrLit ((jfind kvs "ResponseCode").getD .null) "0" = false := by
      rw [hc]
      simp [pyEqStrLit, hcne]
    rw [hred, if_neg (by simp [hcond])]
    refine ⟨rfl, _, rfl, ?_⟩
    simp [stkRejectBody, jfind, hdesc]

/-- Witness for C3: the spec's two stub replies — accepted with the
tracking id preserved, and rejected with "insufficient permissions"
surfaced verbatim. -/
theorem initiate_stk_push_response_interpretation_witness :
    ((initiate_stk_push cfgEx ⟨2026, 10, 12, 9, 30, 0⟩
        ⟨.resp ⟨200, some (.obj [("access_token", .str "tok")])⟩,
         .resp ⟨200, some (.obj [("ResponseCode", .str "0"),
                                 ("CustomerMessage", .str "ok"),
                                 ("CheckoutRequestID", .str "abc")])⟩⟩
        [("phoneNumber", .str "254712345678"), ("amount", .int 100)]).status
      = 200 ∧
     ∃ flds, (initiate_stk_push cfgEx ⟨2026, 10, 12, 9, 30, 0⟩
        ⟨.resp ⟨200, some (.obj [("access_token", .str "tok")])⟩,
         .resp ⟨200, some (.obj [("ResponseCode", .str "0"),
                                 ("CustomerMessage", .str "ok"),
                                 ("CheckoutRequestID", .str "abc")])⟩⟩
        [("phoneNumber", .str "254712345678"), ("amount", .int 100)]).body
        = .obj flds ∧
        jfind flds "CheckoutRequestID" = some (.str "abc")) ∧
    ((initiate_stk_push cfgEx ⟨2026, 10, 12, 9, 30, 0⟩
        ⟨.resp ⟨200, some (.obj [("access_token", .str "tok")])⟩,
         .resp ⟨200, some (.obj [("ResponseCode", .str "1"),
                ("ResponseDescription", .str "insufficient permissions")])⟩⟩
        [("phoneNumber", .str "254712345678"), ("amount", .int 100)]).status
      = 400 ∧
     ∃ flds, (initiate_stk_push cfgEx ⟨2026, 10, 12, 9, 30, 0⟩
        ⟨.resp ⟨200, some (.obj [("access_token", .str "tok")])⟩,
         .resp ⟨200, some (.obj [("ResponseCode", .str "1"),
                ("ResponseDescription", .str "insufficient permissions")])⟩⟩
        [("phoneNumber", .str "254712345678"), ("amount", .int 100)]).body
        = .obj flds ∧
        jfind flds "message" = some (.str "insufficient permissions")) := by
  constructor
  · have h := (initiate_stk_push_response_interpretation cfgEx
      ⟨2026, 10, 12, 9, 30, 0⟩
      ⟨.resp ⟨200, some (.obj [("access_token", .str "tok")])⟩,
       .resp ⟨200, some (.obj [("ResponseCode", .str "0"),
                               ("CustomerMessage", .str "ok"),
                               ("CheckoutRequestID", .str "abc")])⟩⟩
      [("phoneNumber", .str "254712345678"), ("amount", .int 100)]
      "254712345678" 100 (.str "tok") 200
      [("ResponseCode", .str "0"), ("CustomerMessage", .str "ok"),
       ("CheckoutRequestID", .str "abc")]
      rfl rfl (by decide) (Or.inl (by decide)) (by decide) (by decide)
      rfl (by decide) rfl (by decide) (by decide)).1 rfl
    exact ⟨h.1, h.2 (.str "abc") rfl⟩
  · have h := (initiate_stk_push_response_interpretation cfgEx
      ⟨2026, 10, 12, 9, 30, 0⟩
      ⟨.resp ⟨200, some (.obj [("access_token", .str "tok")])⟩,
       .resp ⟨200, some (.obj [("ResponseCode", .str "1"),
              ("ResponseDescription", .str "insufficient permissions")])⟩⟩
      [("phoneNumber", .str "254712345678"), ("amount", .int 100)]
      "254712345678" 100 (.str "tok") 200
      [("ResponseCode", .str "1"),
       ("ResponseDescription", .str "insufficient permissions")]
      rfl rfl (by decide) (Or.inl (by decide)) (by decide) (by decide)
      rfl (by decide) rfl (by decide) (by decide)).2
      "1" "insufficient permissions" rfl (by decide) rfl
    exact h

/-- C9 (amended): for a valid request whose payment POST answers with a
4xx or 5xx status — the statuses `raise_for_status` raises on —
`initiate_stk_push` returns the HTTP 500 transport-failure response, not
the 400 provider-rejection response, regardless of any `ResponseCode` or
`ResponseDescription` in the reply body (the body is never inspected).
Statuses outside both 2xx and 400-599, such as 304, pass
`raise_for_status`, so their bodies ARE inspected. -/
theorem initiate_stk_push_http_error_500 (cfg : Config) (t : DateTime)
    (env : StkEnv) (data : List (String × JVal)) (s : String) (n : Int)
    (tok : JVal) (r : ProviderResp)
    (hp : jfind data "phoneNumber" = some (.str s))
    (ha : jfind data "amount" = some (.int n))
    (hlen : s.length = 12)
    (hpre : (pyStartsWith s "2547" = true ∨ pyStartsWith s "2541" = true))
    (hdig : s.data.all Char.isDigit = true)
    (hn : 0 < n)
    (htok : get_access_token env.tokenNet = some tok)
    (hsc : pyIsdigit cfg.BUSINESS_SHORT_CODE = true)
    (hsn : env.stkNet = .resp r)
    (h4 : 400 ≤ r.status) (h6 : r.status < 600) :
    (initiate_stk_push cfg t env data).status = 500 ∧
    (initiate_stk_push cfg t env data).body =
      errBody ("Network or API communication error: " ++
               httpErrorText r.status) ∧
    (initiate_stk_push cfg t env data).status ≠ 400 := by
  have hred : initiate_stk_push cfg t env data =
      ⟨500, errBody ("Network or API communication error: " ++
                     httpErrorText r.status),
       true, true, some (mkStkPayload cfg t s (.int n))⟩ := by
    rw [initiate_validation_pass cfg t env data s (.int n) hp ha hlen
      (by rcases hpre with h | h <;> simp [h]) hdig
      (by simp only [pyTruthy, bne_iff_ne, ne_eq]; omega)
      (by simp only [pyIsInt, pyIntVal, Bool.true_and, decide_eq_true_eq]; omega)]
    exact stkNetworkStage_http_error cfg t env s (.int n) tok r htok hsc hsn
      (by unfold raisesForStatus; omega)
  rw [hred]
  exact ⟨rfl, rfl, by simp⟩

/-- Witness for C9's amended theorem: a 403 reply whose body even carries
`ResponseCode` "0" still yields the 500 transport-failure response. -/
theorem initiate_stk_push_http_error_500_witness :
    (initiate_stk_push cfgEx ⟨2026, 10, 12, 9, 30, 0⟩
       ⟨.resp ⟨200, some (.obj [("access_token", .str "tok")])⟩,
        .resp ⟨403, some (.obj [("ResponseCode", .str "0"),
               ("ResponseDescription", .str "spoofed")])⟩⟩
       [("phoneNumber", .str "254712345678"), ("amount", .int 100)]).status
      = 500 := by
  exact (initiate_stk_push_http_error_500 cfgEx ⟨2026, 10, 12, 9, 30, 0⟩
    ⟨.resp ⟨200, some (.obj [("access_token", .str "tok")])⟩,
     .resp ⟨403, some (.obj [("ResponseCode", .str "0"),
            ("ResponseDescription", .str "spoofed")])⟩⟩
    [("phoneNumber", .str "254712345678"), ("amount", .int 100)]
    "254712345678" 100 (.str "tok")
    ⟨403, some (.obj [("ResponseCode", .str "0"),
           ("ResponseDescription", .str "spoofed")])⟩
    rfl rfl (by decide) (Or.inl (by decide)) (by decide) (by decide)
    rfl (by decide) rfl (by decide) (by decide)).1

/-- C9 counterexample: a 304 reply is non-2xx, yet `raise_for_status`
does not raise on it, the body's `ResponseCode` "1" IS inspected, and the
result is the 400 provider-rejection response rather than the claimed 500
transport-failure response. -/
theorem initiate_stk_push_non2xx_counterexample :
    ¬ (200 ≤ 304 ∧ 304 < 300) ∧
    (initiate_stk_push cfgEx ⟨2026, 10, 12, 9, 30, 0⟩
       ⟨.resp ⟨200, some (.obj [("access_token", .str "tok")])⟩,
        .resp ⟨304, some (.obj [("ResponseCode", .str "1"),
               ("ResponseDescription", .str "insufficient permissions")])⟩⟩
       [("phoneNumber", .str "254712345678"), ("amount", .int 100)]).status
      = 400 ∧
    (initiate_stk_push cfgEx ⟨2026, 10, 12, 9, 30, 0⟩
       ⟨.resp ⟨200, some (.obj [("access_token", .str "tok")])⟩,
        .resp ⟨304, some (.obj [("ResponseCode", .str "1"),
               ("ResponseDescription", .str "insufficient permissions")])⟩⟩
       [("phoneNumber", .str "254712345678"), ("amount", .int 100)]).status
      ≠ 500 := by
  refine ⟨by decide, by decide, by decide⟩

/-- C10: the amount check accepts Python booleans — with a valid phone and
`amount = True` (JSON `true`), validation passes (the token fetcher is
invoked, since `bool` is a subclass of `int` and `True > 0`), and when the
token and short code are usable the POSTed payload's `Amount` is that very
boolean; separately, a falsy amount such as 0 is rejected by the presence
check alone (the "required" message, before the integer check runs). -/
theorem initiate_stk_push_bool_amount (cfg : Config) (t : DateTime)
    (env : StkEnv) (data : List (String × JVal)) (s : String)
    (hp : jfind data "phoneNumber" = some (.str s))
    (ha : jfind data "amount" = some (.bool true))
    (hlen : s.length = 12)
    (hpre : (pyStartsWith s "2547" = true ∨ pyStartsWith s "2541" = true))
    (hdig : s.data.all Char.isDigit = true) :
    (initiate_stk_push cfg t env data).tokenCalled = true ∧
    (∀ tok, get_access_token env.tokenNet = some tok →
      pyIsdigit cfg.BUSINESS_SHORT_CODE = true →
      ∃ p, (initiate_stk_push cfg t env data).posted = some p ∧
        p.Amount = .bool true) ∧
    (∀ (data2 : List (String × JVal)),
      jfind data2 "amount" = some (.int 0) →
      initiate_stk_push cfg t env data2 =
        ⟨400, errBody "Phone number and amount are required.",
         false, false, none⟩) := by
  have hred : initiate_stk_push cfg t env data =
      stkNetworkStage cfg t env s (.bool true) :=
    initiate_validation_pass cfg t env data s (.bool true) hp ha hlen
      (by rcases hpre with h | h <;> simp [h]) hdig rfl (by decide)
  refine ⟨?_, fun tok htok hsc => ?_, fun data2 ha2 => ?_⟩
  · rw [hred]
    exact stkNetworkStage_tokenCalled cfg t env s (.bool true)
  · refine ⟨mkStkPayload cfg t s (.bool true), ?_, rfl⟩
    rw [hred]
    exact stkNetworkStage_posted cfg t env s (.bool true) tok htok hsc
  · apply initiate_reject_missing
    rw [ha2]
    simp [pyTruthy]

/-- Witness for C10: `amount = true` passes validation and is POSTed as
the payload's `Amount`; `amount = 0` hits the presence check. -/
theorem initiate_stk_push_bool_amount_witness :
    (initiate_stk_push cfgEx ⟨2026, 10, 12, 9, 30, 0⟩
       ⟨.resp ⟨200, some (.obj [("access_token", .str "tok")])⟩,
        .transportError "down"⟩
       [("phoneNumber", .str "254712345678"),
        ("amount", .bool true)]).tokenCalled = true ∧
    (∃ p, (initiate_stk_push cfgEx ⟨2026, 10, 12, 9, 30, 0⟩
       ⟨.resp ⟨200, some (.obj [("access_token", .str "tok")])⟩,
        .transportError "down"⟩
       [("phoneNumber", .str "254712345678"),
        ("amount", .bool true)]).posted = some p ∧ p.Amount = .bool true) := by
  have h := initiate_stk_push_bool_amount cfgEx ⟨2026, 10, 12, 9, 30, 0⟩
    ⟨.resp ⟨200, some (.obj [("access_token", .str "tok")])⟩,
     .transportError "down"⟩
    [("phoneNumber", .str "254712345678"), ("amount", .bool true)]
    "254712345678" rfl rfl (by decide) (Or.inl (by decide)) (by decide)
  exact ⟨h.1, h.2.1 (.str "tok") rfl (by decide)⟩
